import Mathlib

/-!
Shallow embedding of the School-Management HTTP service
(`src/index.js` and `src/controllers/schoolController.js`).

JavaScript strings are modelled as `List Char`, JavaScript numbers as a
rational together with the special values `NaN`, `+Infinity`, `-Infinity`
(floating point is embedded into exact arithmetic), and request-body /
query-string values as a `JSValue` sum covering the cases the handlers
can observe (`undefined`, `null`, booleans, numbers, strings).
-/

namespace SchoolMgmt

/-- JavaScript string model. -/
abbrev Str := List Char

/-- JavaScript number: NaN, the two infinities, or a finite value
(embedded as an exact rational). -/
inductive JNum where
  | nan
  | posInf
  | negInf
  | fin (q : ℚ)
deriving DecidableEq

/-- The JavaScript values the handlers can receive in a body field or a
query parameter. -/
inductive JSValue where
  | undef
  | null
  | bool (b : Bool)
  | num (n : JNum)
  | str (s : Str)
deriving DecidableEq

/-- JavaScript truthiness: `undefined`, `null`, `false`, `NaN`, `0` and
the empty string are falsy, everything else is truthy. -/
def truthy : JSValue → Bool
  | .undef => false
  | .null => false
  | .bool b => b
  | .num .nan => false
  | .num (.fin q) => decide (q ≠ 0)
  | .num _ => true
  | .str s => decide (s ≠ [])

/-- The JavaScript test `typeof v === "string"`. -/
def isString : JSValue → Bool
  | .str _ => true
  | _ => false

/-- The underlying string of a string value (defaulting to `[]`; the
handlers only reach it after a `typeof === "string"` guard). -/
def strV : JSValue → Str
  | .str s => s
  | _ => []

/-- Whitespace predicate used by `String.prototype.trim`. -/
def wsp (c : Char) : Bool := c.isWhitespace

/-- JavaScript `String.prototype.trim`: drop whitespace from both ends. -/
def trimL (l : Str) : Str :=
  ((l.dropWhile wsp).reverse.dropWhile wsp).reverse

/-- Numeric value of a digit run, most significant first. -/
def digitsToNat (ds : Str) : ℕ :=
  ds.foldl (fun n c => 10 * n + (c.toNat - 48)) 0

/-- Ten to a signed exponent, over ℚ. -/
def tenPow (e : ℤ) : ℚ := (10 : ℚ) ^ e

/-- Exponent suffix of a decimal literal: `e`/`E`, an optional sign and a
digit run; an incomplete suffix contributes exponent `0` (JavaScript
`parseFloat` keeps the longest valid literal prefix). -/
def parseExp (l : Str) : ℤ :=
  match l with
  | c :: rest =>
    if c = 'e' ∨ c = 'E' then
      match rest with
      | '+' :: ds =>
        if ds.takeWhile digit = [] then 0 else (digitsToNat (ds.takeWhile digit) : ℤ)
      | '-' :: ds =>
        if ds.takeWhile digit = [] then 0 else -(digitsToNat (ds.takeWhile digit) : ℤ)
      | ds =>
        if ds.takeWhile digit = [] then 0 else (digitsToNat (ds.takeWhile digit) : ℤ)
    else 0
  | [] => 0
where
  digit (c : Char) : Bool := c.isDigit

/-- Mantissa of a decimal literal: digits, optionally a decimal point and
more digits; at least one digit must be present. Returns its value and
the unconsumed remainder (an empty fraction part contributes zero, so it
is elided). -/
def parseMantissa (l : Str) : Option (ℚ × Str) :=
  let ip := l.takeWhile Char.isDigit
  let rest := l.dropWhile Char.isDigit
  match rest with
  | '.' :: rest2 =>
    let fp := rest2.takeWhile Char.isDigit
    if ip = [] ∧ fp = [] then none
    else if fp = [] then some ((digitsToNat ip : ℚ), rest2.dropWhile Char.isDigit)
    else some ((digitsToNat ip : ℚ) + (digitsToNat fp : ℚ) / (10 : ℚ) ^ fp.length,
               rest2.dropWhile Char.isDigit)
  | _ => if ip = [] then none else some ((digitsToNat ip : ℚ), rest)

/-- JavaScript `parseFloat` on a string: skip leading whitespace, read an
optional sign, then either an `Infinity` literal or the longest decimal
literal prefix; `NaN` when no literal is present. -/
def parseFloatL (s : Str) : JNum :=
  let t := s.dropWhile wsp
  let signNeg : Bool := match t with
    | '-' :: _ => true
    | _ => false
  let body : Str := match t with
    | '-' :: r => r
    | '+' :: r => r
    | r => r
  if ['I', 'n', 'f', 'i', 'n', 'i', 't', 'y'].isPrefixOf body then
    if signNeg then JNum.negInf else JNum.posInf
  else
    match parseMantissa body with
    | none => JNum.nan
    | some (m, rest) =>
      let mag := scaleByExp m (parseExp rest)
      JNum.fin (if signNeg then -mag else mag)
where
  /-- Apply the ten-power exponent (an exponent of zero scales by one). -/
  scaleByExp (m : ℚ) (e : ℤ) : ℚ := if e = 0 then m else m * tenPow e

/-- JavaScript `parseFloat` on an arbitrary value: the argument is first
converted to a string (`undefined` → `"undefined"`, `null` → `"null"`,
booleans → `"true"`/`"false"`, all of which parse to `NaN`; a number
round-trips through its decimal representation to itself, with `NaN` and
`±Infinity` mapping to themselves). -/
def parseFloatJS : JSValue → JNum
  | .str s => parseFloatL s
  | .num n => n
  | _ => JNum.nan

/-- JavaScript `isNaN` on a number. -/
def isNaNJ : JNum → Bool
  | .nan => true
  | _ => false

/-- JavaScript `<` on numbers: any comparison involving `NaN` is false. -/
def jlt : JNum → JNum → Bool
  | .fin a, .fin b => decide (a < b)
  | .fin _, .posInf => true
  | .negInf, .fin _ => true
  | .negInf, .posInf => true
  | _, _ => false

/-- JavaScript `>` on numbers. -/
def jgt (a b : JNum) : Bool := jlt b a

/-- A candidate school record as read from the request body. -/
structure SchoolInput where
  name : JSValue
  address : JSValue
  latitude : JSValue
  longitude : JSValue
deriving DecidableEq

def nameMsg : String := "Name is required and must be a non-empty string"
def addressMsg : String := "Address is required and must be a non-empty string"
def latReqMsg : String := "Latitude is required and must be a valid number"
def latRangeMsg : String := "Latitude must be between -90 and 90"
def lonReqMsg : String := "Longitude is required and must be a valid number"
def lonRangeMsg : String := "Longitude must be between -180 and 180"

/-- A persisted school row (`schools` table: auto-increment `id`, `name`,
`address`, `latitude`, `longitude`). The coordinate columns are modelled
as exact rationals; on the only write path they come from inputs the
validator accepted, hence are finite. -/
structure School where
  id : ℕ
  name : Str
  address : Str
  latitude : ℚ
  longitude : ℚ
deriving DecidableEq

/-- The datastore: the rows of the `schools` table and the next
auto-increment identifier (MySQL starts at 1). -/
structure DB where
  rows : List School
  nextId : ℕ
deriving DecidableEq

/-- Finite value of a JavaScript number (the handlers only store numbers
that passed the `isNaN` and range checks, which excludes `NaN` and
`±Infinity`). -/
def jToQ : JNum → ℚ
  | .fin q => q
  | _ => 0

/-- Response of `POST /addSchool`. -/
inductive AddResult where
  | badRequest (errors : List String)
  | created (message : String) (schoolId : ℕ)
  | serverError (message : String) (errorDetail : Option String)
deriving DecidableEq

/-- Response of `GET /listSchools`: a 400, a 200 payload carrying `count`
and the distance-annotated rows, or a 500. -/
inductive ListResult where
  | badRequest (message : String)
  | ok (count : ℕ) (schools : List (School × ℝ))
  | serverError (message : String) (errorDetail : Option String)

/-- The expression `process.env.NODE_ENV === "development" ? error.message : undefined`. -/
def devDetail (env : String) (msg : String) : Option String :=
  if env == "development" then some msg else none

/-- JavaScript `Math.atan2`. -/
noncomputable def atan2 (y x : ℝ) : ℝ :=
  if 0 < x then Real.arctan (y / x)
  else if x < 0 then
    (if 0 ≤ y then Real.arctan (y / x) + Real.pi else Real.arctan (y / x) - Real.pi)
  else if 0 < y then Real.pi / 2
  else if y < 0 then -(Real.pi / 2)
  else 0

/-- JavaScript `Number.prototype.toFixed(2)` followed by `parseFloat`: round to two
decimal places (ties to the larger value, as `toFixed` specifies). -/
noncomputable def round2 (x : ℝ) : ℝ := (round (x * 100) : ℤ) / 100

namespace IndexJs

/-- The `calculateDistance` function of `src/index.js`: haversine distance in km. -/
noncomputable def calculateDistance (lat1 lon1 lat2 lon2 : ℝ) : ℝ :=
  let R : ℝ := 6371
  let dLat := (lat2 - lat1) * Real.pi / 180
  let dLon := (lon2 - lon1) * Real.pi / 180
  let a :=
    Real.sin (dLat / 2) * Real.sin (dLat / 2) +
      Real.cos (lat1 * Real.pi / 180) * Real.cos (lat2 * Real.pi / 180) *
        Real.sin (dLon / 2) * Real.sin (dLon / 2)
  let c := 2 * atan2 (Real.sqrt a) (Real.sqrt (1 - a))
  R * c

/-- First block of `validateSchoolInput` in `src/index.js`:
`if (!data.name || typeof data.name !== "string" || data.name.trim() === "") errors.push(...)`. -/
def nameErrors (v : JSValue) : List String :=
  if !truthy v || !isString v || trimL (strV v) == [] then [nameMsg] else []

/-- Second block: the same check on `data.address`. -/
def addressErrors (v : JSValue) : List String :=
  if !truthy v || !isString v || trimL (strV v) == [] then [addressMsg] else []

/-- Third block: `if (!data.latitude || isNaN(parseFloat(data.latitude)))`
push the required-number message, `else` check the `[-90, 90]` range. -/
def latitudeErrors (v : JSValue) : List String :=
  if !truthy v || isNaNJ (parseFloatJS v) then [latReqMsg]
  else
    let lat := parseFloatJS v
    if jlt lat (.fin (-90)) || jgt lat (.fin 90) then [latRangeMsg] else []

/-- Fourth block: the analogous check on `data.longitude` with range
`[-180, 180]`. -/
def longitudeErrors (v : JSValue) : List String :=
  if !truthy v || isNaNJ (parseFloatJS v) then [lonReqMsg]
  else
    let lon := parseFloatJS v
    if jlt lon (.fin (-180)) || jgt lon (.fin 180) then [lonRangeMsg] else []

/-- The `validateSchoolInput` function of `src/index.js`: the four independent field
checks push their messages, in source order, into one errors array. -/
def validateSchoolInput (data : SchoolInput) : List String :=
  nameErrors data.name ++ addressErrors data.address ++
    latitudeErrors data.latitude ++ longitudeErrors data.longitude

/-- The `POST /addSchool` handler of `src/index.js`. `repoFail` injects a
repository failure (the `catch` path): `none` means both the
`getConnection` and the `INSERT` succeed. -/
def addSchool (env : String) (repoFail : Option String) (db : DB)
    (schoolData : SchoolInput) : DB × AddResult :=
  let validationErrors := validateSchoolInput schoolData
  if validationErrors.length > 0 then (db, .badRequest validationErrors)
  else
    match repoFail with
    | some e => (db, .serverError "Internal server error" (devDetail env e))
    | none =>
      let row : School :=
        { id := db.nextId
          name := trimL (strV schoolData.name)
          address := trimL (strV schoolData.address)
          latitude := jToQ (parseFloatJS schoolData.latitude)
          longitude := jToQ (parseFloatJS schoolData.longitude) }
      (⟨db.rows ++ [row], db.nextId + 1⟩,
        .created "School added successfully" db.nextId)

/-- The inline query validation of the `GET /listSchools` handler:
`isNaN(userLat) || isNaN(userLon) || userLat < -90 || userLat > 90 ||
userLon < -180 || userLon > 180`. -/
def invalidLocation (latQ lonQ : JSValue) : Bool :=
  let userLat := parseFloatJS latQ
  let userLon := parseFloatJS lonQ
  isNaNJ userLat || isNaNJ userLon ||
    jlt userLat (.fin (-90)) || jgt userLat (.fin 90) ||
    jlt userLon (.fin (-180)) || jgt userLon (.fin 180)

/-- Distance annotation of one row:
`{...school, distance: parseFloat(calculateDistance(...).toFixed(2))}`. -/
noncomputable def withDistance (userLat userLon : ℚ) (school : School) :
    School × ℝ :=
  (school,
    round2 (calculateDistance (userLat : ℝ) (userLon : ℝ)
      (school.latitude : ℝ) (school.longitude : ℝ)))

/-- The comparator `(a, b) => a.distance - b.distance` as the ordering it
induces on the annotated rows. -/
noncomputable def distLE (a b : School × ℝ) : Bool := decide (a.2 ≤ b.2)

/-- The `GET /listSchools` handler of `src/index.js`: validate the query
coordinates, fetch all rows, annotate each with its rounded distance,
sort ascending by distance (`Array.prototype.sort` is stable), and reply
with the count and the sorted list. -/
noncomputable def listSchools (env : String) (repoFail : Option String)
    (db : DB) (latQ lonQ : JSValue) : ListResult :=
  if invalidLocation latQ lonQ then
    .badRequest "Invalid latitude or longitude provided"
  else
    match repoFail with
    | some e => .serverError "Internal server error" (devDetail env e)
    | none =>
      let userLat := jToQ (parseFloatJS latQ)
      let userLon := jToQ (parseFloatJS lonQ)
      let schoolsWithDistance := db.rows.map (withDistance userLat userLon)
      let sorted := schoolsWithDistance.mergeSort distLE
      .ok sorted.length sorted

end IndexJs

namespace SchoolController

/-- The `calculateDistance` copy in `src/controllers/schoolController.js`
(textually the same haversine computation as the `src/index.js` copy). -/
noncomputable def calculateDistance (lat1 lon1 lat2 lon2 : ℝ) : ℝ :=
  let R : ℝ := 6371
  let dLat := (lat2 - lat1) * Real.pi / 180
  let dLon := (lon2 - lon1) * Real.pi / 180
  let a :=
    Real.sin (dLat / 2) * Real.sin (dLat / 2) +
      Real.cos (lat1 * Real.pi / 180) * Real.cos (lat2 * Real.pi / 180) *
        Real.sin (dLon / 2) * Real.sin (dLon / 2)
  let c := 2 * atan2 (Real.sqrt a) (Real.sqrt (1 - a))
  R * c

/-- Name check of `validateSchoolInput` in the controller copy. -/
def nameErrors (v : JSValue) : List String :=
  if !truthy v || !isString v || trimL (strV v) == [] then [nameMsg] else []

/-- Address check of the controller copy. -/
def addressErrors (v : JSValue) : List String :=
  if !truthy v || !isString v || trimL (strV v) == [] then [addressMsg] else []

/-- Latitude check of the controller copy. -/
def latitudeErrors (v : JSValue) : List String :=
  if !truthy v || isNaNJ (parseFloatJS v) then [latReqMsg]
  else
    let lat := parseFloatJS v
    if jlt lat (.fin (-90)) || jgt lat (.fin 90) then [latRangeMsg] else []

/-- Longitude check of the controller copy. -/
def longitudeErrors (v : JSValue) : List String :=
  if !truthy v || isNaNJ (parseFloatJS v) then [lonReqMsg]
  else
    let lon := parseFloatJS v
    if jlt lon (.fin (-180)) || jgt lon (.fin 180) then [lonRangeMsg] else []

/-- The `validateSchoolInput` copy in `src/controllers/schoolController.js`. -/
def validateSchoolInput (data : SchoolInput) : List String :=
  nameErrors data.name ++ addressErrors data.address ++
    latitudeErrors data.latitude ++ longitudeErrors data.longitude

/-- The controller handler `exports.addSchool`: same flow as the `src/index.js` handler, except
that its `catch` responds with the generic message only — it never
attaches an `error` detail field, in any environment. -/
def addSchool (env : String) (repoFail : Option String) (db : DB)
    (schoolData : SchoolInput) : DB × AddResult :=
  let validationErrors := validateSchoolInput schoolData
  if validationErrors.length > 0 then (db, .badRequest validationErrors)
  else
    match repoFail with
    | some _ => (db, .serverError "Internal server error" none)
    | none =>
      let row : School :=
        { id := db.nextId
          name := trimL (strV schoolData.name)
          address := trimL (strV schoolData.address)
          latitude := jToQ (parseFloatJS schoolData.latitude)
          longitude := jToQ (parseFloatJS schoolData.longitude) }
      (⟨db.rows ++ [row], db.nextId + 1⟩,
        .created "School added successfully" db.nextId)

/-- Query validation of `exports.listSchools` (same test as in
`src/index.js`). -/
def invalidLocation (latQ lonQ : JSValue) : Bool :=
  let userLat := parseFloatJS latQ
  let userLon := parseFloatJS lonQ
  isNaNJ userLat || isNaNJ userLon ||
    jlt userLat (.fin (-90)) || jgt userLat (.fin 90) ||
    jlt userLon (.fin (-180)) || jgt userLon (.fin 180)

/-- Distance annotation in the controller copy. -/
noncomputable def withDistance (userLat userLon : ℚ) (school : School) :
    School × ℝ :=
  (school,
    round2 (calculateDistance (userLat : ℝ) (userLon : ℝ)
      (school.latitude : ℝ) (school.longitude : ℝ)))

/-- The controller handler `exports.listSchools`: same flow as the `src/index.js` handler, with
the detail-free `catch`. -/
noncomputable def listSchools (env : String) (repoFail : Option String)
    (db : DB) (latQ lonQ : JSValue) : ListResult :=
  if invalidLocation latQ lonQ then
    .badRequest "Invalid latitude or longitude provided"
  else
    match repoFail with
    | some _ => .serverError "Internal server error" none
    | none =>
      let userLat := jToQ (parseFloatJS latQ)
      let userLon := jToQ (parseFloatJS lonQ)
      let schoolsWithDistance := db.rows.map (withDistance userLat userLon)
      let sorted := schoolsWithDistance.mergeSort IndexJs.distLE
      .ok sorted.length sorted

end SchoolController

/-- Datastore states reachable through the service: the empty table
created at startup, followed by any sequence of `POST /addSchool`
requests (the only write path; the list handler never writes). -/
inductive Reachable : DB → Prop where
  | empty : Reachable ⟨[], 1⟩
  | add (env : String) (repoFail : Option String) (i : SchoolInput)
      {db : DB} : Reachable db → Reachable (IndexJs.addSchool env repoFail db i).1

/-- The §3 field constraints on a persisted School record: non-empty
trimmed name and address, latitude in [-90, 90], longitude in
[-180, 180]. -/
def GoodSchool (s : School) : Prop :=
  trimL s.name ≠ [] ∧ trimL s.address ≠ [] ∧
    -90 ≤ s.latitude ∧ s.latitude ≤ 90 ∧
    -180 ≤ s.longitude ∧ s.longitude ≤ 180

/-- A persisted record presented back to the validator: strings as
strings, coordinates as the stored numbers. -/
def schoolAsInput (s : School) : SchoolInput :=
  ⟨.str s.name, .str s.address, .num (.fin s.latitude), .num (.fin s.longitude)⟩

theorem strV_str (s : Str) : strV (.str s) = s := rfl

theorem truthy_str (s : Str) : truthy (.str s) = decide (s ≠ []) := rfl

theorem truthy_num_fin (q : ℚ) : truthy (.num (.fin q)) = decide (q ≠ 0) := rfl

theorem isString_str (s : Str) : isString (.str s) = true := rfl

theorem parseFloatJS_num (n : JNum) : parseFloatJS (.num n) = n := rfl

theorem mem_dropWhile_of_mem {p : Char → Bool} {l : Str} {c : Char}
    (hc : c ∈ l) (hp : ¬ p c) : c ∈ l.dropWhile p := by
  rw [← List.takeWhile_append_dropWhile (p := p) (l := l)] at hc
  rcases List.mem_append.mp hc with h | h
  · exact absurd (List.mem_takeWhile_imp h) hp
  · exact h

theorem mem_trimL {l : Str} {c : Char} (hc : c ∈ l) (hp : ¬ wsp c) :
    c ∈ trimL l := by
  unfold trimL
  exact List.mem_reverse.mpr
    (mem_dropWhile_of_mem (List.mem_reverse.mpr (mem_dropWhile_of_mem hc hp)) hp)

theorem trimL_eq_nil_iff (l : Str) : trimL l = [] ↔ ∀ c ∈ l, wsp c := by
  constructor
  · intro h c hc
    by_contra hp
    exact List.ne_nil_of_mem (mem_trimL hc hp) h
  · intro h
    unfold trimL
    rw [List.reverse_eq_nil_iff, List.dropWhile_eq_nil_iff]
    intro c hc
    exact h c ((List.dropWhile_sublist (p := wsp)).mem (List.mem_reverse.mp hc))

theorem trimL_trimL_ne_nil {l : Str} (h : trimL l ≠ []) :
    trimL (trimL l) ≠ [] := by
  have hex : ∃ c ∈ l, ¬ wsp c := by
    by_contra hall
    push_neg at hall
    exact h ((trimL_eq_nil_iff l).mpr (by simpa using hall))
  obtain ⟨c, hc, hp⟩ := hex
  exact List.ne_nil_of_mem (mem_trimL (mem_trimL hc hp) hp)

theorem nameErrors_eq_nil {v : JSValue} (h : IndexJs.nameErrors v = []) :
    ∃ s : Str, v = .str s ∧ trimL s ≠ [] := by
  cases v with
  | str s =>
    refine ⟨s, rfl, fun htr => ?_⟩
    simp [IndexJs.nameErrors, truthy, isString, strV, htr] at h
  | undef => simp [IndexJs.nameErrors, truthy] at h
  | null => simp [IndexJs.nameErrors, truthy] at h
  | bool b => simp [IndexJs.nameErrors, isString] at h
  | num n => simp [IndexJs.nameErrors, isString] at h

theorem addressErrors_eq_nil {v : JSValue} (h : IndexJs.addressErrors v = []) :
    ∃ s : Str, v = .str s ∧ trimL s ≠ [] := by
  cases v with
  | str s =>
    refine ⟨s, rfl, fun htr => ?_⟩
    simp [IndexJs.addressErrors, truthy, isString, strV, htr] at h
  | undef => simp [IndexJs.addressErrors, truthy] at h
  | null => simp [IndexJs.addressErrors, truthy] at h
  | bool b => simp [IndexJs.addressErrors, isString] at h
  | num n => simp [IndexJs.addressErrors, isString] at h

theorem latitudeErrors_eq_nil {v : JSValue} (h : IndexJs.latitudeErrors v = []) :
    ∃ q : ℚ, parseFloatJS v = .fin q ∧ -90 ≤ q ∧ q ≤ 90 := by
  unfold IndexJs.latitudeErrors at h
  split at h
  · exact absurd h (by simp)
  · rename_i hcond
    simp only [Bool.or_eq_true, Bool.not_eq_true', not_or] at hcond
    obtain ⟨-, hnan⟩ := hcond
    cases hp : parseFloatJS v with
    | nan => rw [hp] at hnan; simp [isNaNJ] at hnan
    | posInf => rw [hp] at h; simp [jlt, jgt] at h
    | negInf => rw [hp] at h; simp [jlt, jgt] at h
    | fin q =>
      rw [hp] at h
      simp only [jlt, jgt] at h
      split at h
      · exact absurd h (by simp)
      · rename_i hranges
        simp only [Bool.or_eq_true, decide_eq_true_eq, not_or] at hranges
        exact ⟨q, rfl, le_of_not_lt hranges.1, le_of_not_lt hranges.2⟩

theorem longitudeErrors_eq_nil {v : JSValue} (h : IndexJs.longitudeErrors v = []) :
    ∃ q : ℚ, parseFloatJS v = .fin q ∧ -180 ≤ q ∧ q ≤ 180 := by
  unfold IndexJs.longitudeErrors at h
  split at h
  · exact absurd h (by simp)
  · rename_i hcond
    simp only [Bool.or_eq_true, Bool.not_eq_true', not_or] at hcond
    obtain ⟨-, hnan⟩ := hcond
    cases hp : parseFloatJS v with
    | nan => rw [hp] at hnan; simp [isNaNJ] at hnan
    | posInf => rw [hp] at h; simp [jlt, jgt] at h
    | negInf => rw [hp] at h; simp [jlt, jgt] at h
    | fin q =>
      rw [hp] at h
      simp only [jlt, jgt] at h
      split at h
      · exact absurd h (by simp)
      · rename_i hranges
        simp only [Bool.or_eq_true, decide_eq_true_eq, not_or] at hranges
        exact ⟨q, rfl, le_of_not_lt hranges.1, le_of_not_lt hranges.2⟩

/-- Claim C9: the duplicated pure functions in the two entry points are
extensionally equal — for every input, `validateSchoolInput` in
`src/index.js` returns the same error list as the copy in
`src/controllers/schoolController.js`, and the two `calculateDistance`
copies return the same value. -/
theorem c9_duplicated_copies_agree :
    (∀ d : SchoolInput,
      IndexJs.validateSchoolInput d = SchoolController.validateSchoolInput d) ∧
    (∀ lat1 lon1 lat2 lon2 : ℝ,
      IndexJs.calculateDistance lat1 lon1 lat2 lon2 =
        SchoolController.calculateDistance lat1 lon1 lat2 lon2) :=
  ⟨fun _ => rfl, fun _ _ _ _ => rfl⟩

/-- Claim C10: the validator reports at most one error message per field,
the messages appear in source order (name, address, latitude, longitude:
the list is exactly the concatenation of the four per-field checks, each
of which yields at most one fixed message), and the error list has length
at most 4. -/
theorem c10_validator_error_shape (d : SchoolInput) :
    IndexJs.validateSchoolInput d =
      IndexJs.nameErrors d.name ++ IndexJs.addressErrors d.address ++
        IndexJs.latitudeErrors d.latitude ++ IndexJs.longitudeErrors d.longitude ∧
    (IndexJs.nameErrors d.name = [] ∨ IndexJs.nameErrors d.name = [nameMsg]) ∧
    (IndexJs.addressErrors d.address = [] ∨
      IndexJs.addressErrors d.address = [addressMsg]) ∧
    (IndexJs.latitudeErrors d.latitude = [] ∨
      IndexJs.latitudeErrors d.latitude = [latReqMsg] ∨
      IndexJs.latitudeErrors d.latitude = [latRangeMsg]) ∧
    (IndexJs.longitudeErrors d.longitude = [] ∨
      IndexJs.longitudeErrors d.longitude = [lonReqMsg] ∨
      IndexJs.longitudeErrors d.longitude = [lonRangeMsg]) ∧
    (IndexJs.validateSchoolInput d).length ≤ 4 := by
  have hn : IndexJs.nameErrors d.name = [] ∨ IndexJs.nameErrors d.name = [nameMsg] := by
    unfold IndexJs.nameErrors; split <;> simp
  have ha : IndexJs.addressErrors d.address = [] ∨
      IndexJs.addressErrors d.address = [addressMsg] := by
    unfold IndexJs.addressErrors; split <;> simp
  have hla : IndexJs.latitudeErrors d.latitude = [] ∨
      IndexJs.latitudeErrors d.latitude = [latReqMsg] ∨
      IndexJs.latitudeErrors d.latitude = [latRangeMsg] := by
    unfold IndexJs.latitudeErrors; split
    · simp
    · dsimp only; split <;> simp
  have hlo : IndexJs.longitudeErrors d.longitude = [] ∨
      IndexJs.longitudeErrors d.longitude = [lonReqMsg] ∨
      IndexJs.longitudeErrors d.longitude = [lonRangeMsg] := by
    unfold IndexJs.longitudeErrors; split
    · simp
    · dsimp only; split <;> simp
  refine ⟨rfl, hn, ha, hla, hlo, ?_⟩
  have ln : (IndexJs.nameErrors d.name).length ≤ 1 := by
    rcases hn with h | h <;> simp [h]
  have la : (IndexJs.addressErrors d.address).length ≤ 1 := by
    rcases ha with h | h <;> simp [h]
  have lla : (IndexJs.latitudeErrors d.latitude).length ≤ 1 := by
    rcases hla with h | h | h <;> simp [h]
  have llo : (IndexJs.longitudeErrors d.longitude).length ≤ 1 := by
    rcases hlo with h | h | h <;> simp [h]
  unfold IndexJs.validateSchoolInput
  simp only [List.length_append]
  omega

/-- Claim C3 (as proved): on any input the validator accepts, the
add-school handler of `src/index.js` appends exactly one row — built from
the trimmed name, the trimmed address, and the `parseFloat`-parsed
coordinates (which the validator guarantees are finite numbers) — and
responds 201 with the datastore-assigned identifier of that row. -/
theorem c3_add_valid_inserts_row (env : String) (db : DB) (i : SchoolInput)
    (h : IndexJs.validateSchoolInput i = []) :
    IndexJs.addSchool env none db i =
      (⟨db.rows ++
          [{ id := db.nextId
             name := trimL (strV i.name)
             address := trimL (strV i.address)
             latitude := jToQ (parseFloatJS i.latitude)
             longitude := jToQ (parseFloatJS i.longitude) }],
        db.nextId + 1⟩,
       .created "School added successfully" db.nextId) ∧
    (∃ qla : ℚ, parseFloatJS i.latitude = .fin qla ∧
      jToQ (parseFloatJS i.latitude) = qla) ∧
    (∃ qlo : ℚ, parseFloatJS i.longitude = .fin qlo ∧
      jToQ (parseFloatJS i.longitude) = qlo) := by
  have hparts := h
  unfold IndexJs.validateSchoolInput at hparts
  rw [List.append_eq_nil, List.append_eq_nil, List.append_eq_nil] at hparts
  obtain ⟨⟨⟨-, -⟩, hla⟩, hlo⟩ := hparts
  obtain ⟨qla, hqla, -, -⟩ := latitudeErrors_eq_nil hla
  obtain ⟨qlo, hqlo, -, -⟩ := longitudeErrors_eq_nil hlo
  refine ⟨?_, ⟨qla, hqla, by rw [hqla]; rfl⟩, ⟨qlo, hqlo, by rw [hqlo]; rfl⟩⟩
  unfold IndexJs.addSchool
  rw [h]
  rfl

/-- Witness for C3 at a concrete valid input. -/
theorem c3_add_valid_inserts_row_witness :
    IndexJs.validateSchoolInput
        ⟨.str ['A'], .str ['B'], .str ['4', '5'], .str ['9', '0']⟩ = [] ∧
    IndexJs.addSchool "production" none ⟨[], 1⟩
        ⟨.str ['A'], .str ['B'], .str ['4', '5'], .str ['9', '0']⟩ =
      (⟨[] ++
          [{ id := 1
             name := trimL (strV (.str ['A']))
             address := trimL (strV (.str ['B']))
             latitude := jToQ (parseFloatJS (.str ['4', '5']))
             longitude := jToQ (parseFloatJS (.str ['9', '0'])) }], 2⟩,
       .created "School added successfully" 1) :=
  ⟨by decide,
   (c3_add_valid_inserts_row "production" ⟨[], 1⟩
      ⟨.str ['A'], .str ['B'], .str ['4', '5'], .str ['9', '0']⟩ (by decide)).1⟩

/-- Claim C4: on any input the validator rejects, the add-school handler
responds 400 carrying the complete error list — the concatenation of the
four independently evaluated per-field checks, none short-circuited — and
leaves the datastore unchanged (this holds whatever the repository would
have done, since validation precedes any repository access). -/
theorem c4_add_invalid_rejects (env : String) (repoFail : Option String)
    (db : DB) (i : SchoolInput)
    (h : IndexJs.validateSchoolInput i ≠ []) :
    IndexJs.addSchool env repoFail db i =
      (db, .badRequest
        (IndexJs.nameErrors i.name ++ IndexJs.addressErrors i.address ++
          IndexJs.latitudeErrors i.latitude ++ IndexJs.longitudeErrors i.longitude)) := by
  have hlen : (IndexJs.validateSchoolInput i).length > 0 :=
    List.length_pos.mpr h
  unfold IndexJs.addSchool
  rw [if_pos hlen]
  rfl

/-- Witness for C4 at a concrete input violating all four rules at once:
all four messages are reported together. -/
theorem c4_add_invalid_rejects_witness :
    IndexJs.validateSchoolInput ⟨.undef, .undef, .undef, .undef⟩ ≠ [] ∧
    IndexJs.addSchool "production" none ⟨[], 1⟩ ⟨.undef, .undef, .undef, .undef⟩ =
      (⟨[], 1⟩, .badRequest [nameMsg, addressMsg, latReqMsg, lonReqMsg]) := by
  refine ⟨by decide, ?_⟩
  have := c4_add_invalid_rejects "production" none ⟨[], 1⟩
    ⟨.undef, .undef, .undef, .undef⟩ (by decide)
  rw [this]
  decide

/-- Claim C6: whenever the query's latitude or longitude is missing,
non-numeric, or out of range (the handler's inline test — `parseFloat` of
a missing parameter is `NaN`), the list-schools handler answers 400 with
the fixed message; the response is a constant independent of the
datastore and of the injected repository behaviour, so no repository read
is performed. -/
theorem c6_list_invalid_query_rejected (env : String) (repoFail : Option String)
    (db : DB) (latQ lonQ : JSValue)
    (h : IndexJs.invalidLocation latQ lonQ = true) :
    IndexJs.listSchools env repoFail db latQ lonQ =
      .badRequest "Invalid latitude or longitude provided" := by
  unfold IndexJs.listSchools
  rw [if_pos h]

/-- Witness for C6 at `latitude=200` (the spec's own test point). -/
theorem c6_list_invalid_query_rejected_witness :
    IndexJs.invalidLocation (.str ['2', '0', '0']) (.str ['7']) = true ∧
    IndexJs.listSchools "production" none ⟨[], 1⟩
        (.str ['2', '0', '0']) (.str ['7']) =
      .badRequest "Invalid latitude or longitude provided" :=
  ⟨by decide,
   c6_list_invalid_query_rejected "production" none ⟨[], 1⟩
     (.str ['2', '0', '0']) (.str ['7']) (by decide)⟩

/-- Claim C7: `calculateDistance` is deterministic (it is a pure function
of its four arguments), symmetric under swapping the two coordinate
pairs, and zero on identical pairs. -/
theorem c7_distance_symmetric_and_zero :
    (∀ lat1 lon1 lat2 lon2 : ℝ,
      IndexJs.calculateDistance lat1 lon1 lat2 lon2 =
        IndexJs.calculateDistance lat2 lon2 lat1 lon1) ∧
    (∀ lat lon : ℝ, IndexJs.calculateDistance lat lon lat lon = 0) := by
  constructor
  · intro lat1 lon1 lat2 lon2
    simp only [IndexJs.calculateDistance]
    have h1 : (lat1 - lat2) * Real.pi / 180 / 2 = -((lat2 - lat1) * Real.pi / 180 / 2) := by
      ring
    have h2 : (lon1 - lon2) * Real.pi / 180 / 2 = -((lon2 - lon1) * Real.pi / 180 / 2) := by
      ring
    simp only [h1, h2, Real.sin_neg]
    ring_nf
  · intro lat lon
    simp [IndexJs.calculateDistance, atan2, Real.arctan_zero]

/-- Counterexample to claim C1: the two paths do not share the zero-is-
missing rule. With both query coordinates equal to `"0"` (which parses to
the in-range number 0), the list-schools handler does not answer 400: it
answers the normal success payload, here over the empty datastore. -/
theorem c1_counterexample_list_accepts_zero :
    IndexJs.listSchools "production" none ⟨[], 1⟩ (.str ['0']) (.str ['0']) =
      .ok 0 [] := by
  have h : IndexJs.invalidLocation (.str ['0']) (.str ['0']) = false := by decide
  simp [IndexJs.listSchools, h]

/-- Claim C1 as amended: a coordinate of exactly 0 is treated as missing
only on the add path — add-school with latitude 0 or longitude 0 answers
a validation error and writes nothing — while the list path's check (NaN
or out-of-range only) accepts a query coordinate that parses to 0 and
does not answer 400. -/
theorem c1_zero_rejected_only_on_add_path :
    (∀ (env : String) (repoFail : Option String) (db : DB) (i : SchoolInput),
      i.latitude = .num (.fin 0) ∨ i.longitude = .num (.fin 0) →
      (IndexJs.addSchool env repoFail db i).1 = db ∧
      ∃ errs, (IndexJs.addSchool env repoFail db i).2 = .badRequest errs ∧
        errs ≠ []) ∧
    (∀ (env : String) (db : DB) (latQ lonQ : JSValue),
      parseFloatJS latQ = .fin 0 → parseFloatJS lonQ = .fin 0 →
      IndexJs.listSchools env none db latQ lonQ ≠
        .badRequest "Invalid latitude or longitude provided") := by
  constructor
  · intro env repoFail db i hi
    have hne : IndexJs.validateSchoolInput i ≠ [] := by
      rcases hi with h | h <;>
        simp [IndexJs.validateSchoolInput, IndexJs.latitudeErrors,
          IndexJs.longitudeErrors, h, truthy]
    have hlen : (IndexJs.validateSchoolInput i).length > 0 :=
      List.length_pos.mpr hne
    refine ⟨?_, IndexJs.validateSchoolInput i, ?_, hne⟩
    · unfold IndexJs.addSchool; rw [if_pos hlen]
    · unfold IndexJs.addSchool; rw [if_pos hlen]
  · intro env db latQ lonQ hla hlo
    have hinv : IndexJs.invalidLocation latQ lonQ = false := by
      simp [IndexJs.invalidLocation, hla, hlo, isNaNJ, jlt, jgt]
    unfold IndexJs.listSchools
    rw [if_neg (by simp [hinv])]
    simp

/-- Witness for the amended C1 at concrete inputs: a body with numeric
latitude 0 leaves the datastore unchanged, and a query with both
coordinates `"0"` is not rejected. -/
theorem c1_zero_rejected_only_on_add_path_witness :
    (IndexJs.addSchool "production" none ⟨[], 1⟩
        ⟨.str ['A'], .str ['B'], .num (.fin 0), .num (.fin 10)⟩).1 = ⟨[], 1⟩ ∧
    IndexJs.listSchools "production" none ⟨[], 1⟩ (.str ['0']) (.str ['0']) ≠
      .badRequest "Invalid latitude or longitude provided" :=
  ⟨(c1_zero_rejected_only_on_add_path.1 "production" none ⟨[], 1⟩
      ⟨.str ['A'], .str ['B'], .num (.fin 0), .num (.fin 10)⟩ (Or.inl rfl)).1,
   c1_zero_rejected_only_on_add_path.2 "production" ⟨[], 1⟩
     (.str ['0']) (.str ['0']) (by decide) (by decide)⟩

/-- Claim C8: when the repository fails unexpectedly on an otherwise
processable request, both handlers answer the generic 500 message; the
`src/index.js` handlers attach the internal error detail exactly when
`NODE_ENV` is `"development"` (so never in production), and the
controller copies never attach it at all. -/
theorem c8_repo_failure_yields_opaque_500 (env msg : String) (db : DB)
    (i : SchoolInput) (latQ lonQ : JSValue)
    (hv : IndexJs.validateSchoolInput i = [])
    (hq : IndexJs.invalidLocation latQ lonQ = false) :
    (IndexJs.addSchool env (some msg) db i).1 = db ∧
    (IndexJs.addSchool env (some msg) db i).2 =
      .serverError "Internal server error" (devDetail env msg) ∧
    IndexJs.listSchools env (some msg) db latQ lonQ =
      .serverError "Internal server error" (devDetail env msg) ∧
    (SchoolController.addSchool env (some msg) db i).1 = db ∧
    (SchoolController.addSchool env (some msg) db i).2 =
      .serverError "Internal server error" none ∧
    SchoolController.listSchools env (some msg) db latQ lonQ =
      .serverError "Internal server error" none ∧
    (env = "development" → devDetail env msg = some msg) ∧
    (env ≠ "development" → devDetail env msg = none) := by
  have hv2 : SchoolController.validateSchoolInput i = [] := hv
  have hq2 : SchoolController.invalidLocation latQ lonQ = false := hq
  refine ⟨?_, ?_, ?_, ?_, ?_, ?_, ?_, ?_⟩
  · unfold IndexJs.addSchool; rw [hv]; rfl
  · unfold IndexJs.addSchool; rw [hv]; rfl
  · unfold IndexJs.listSchools; rw [if_neg (by simp [hq])]
  · unfold SchoolController.addSchool; rw [hv2]; rfl
  · unfold SchoolController.addSchool; rw [hv2]; rfl
  · unfold SchoolController.listSchools; rw [if_neg (by simp [hq2])]
  · intro h; simp [devDetail, h]
  · intro h; simp [devDetail, h]

/-- Witness for C8: with the repository failing, the development
environment sees the detail `"boom"` and a production environment sees
none. -/
theorem c8_repo_failure_yields_opaque_500_witness :
    (IndexJs.addSchool "development" (some "boom") ⟨[], 1⟩
        ⟨.str ['A'], .str ['B'], .str ['4', '5'], .str ['9', '0']⟩).2 =
      .serverError "Internal server error" (some "boom") ∧
    (IndexJs.addSchool "production" (some "boom") ⟨[], 1⟩
        ⟨.str ['A'], .str ['B'], .str ['4', '5'], .str ['9', '0']⟩).2 =
      .serverError "Internal server error" none := by
  constructor
  · have h := (c8_repo_failure_yields_opaque_500 "development" "boom" ⟨[], 1⟩
      ⟨.str ['A'], .str ['B'], .str ['4', '5'], .str ['9', '0']⟩
      (.str ['1']) (.str ['2']) (by decide) (by decide)).2.1
    rw [h]; rfl
  · have h := (c8_repo_failure_yields_opaque_500 "production" "boom" ⟨[], 1⟩
      ⟨.str ['A'], .str ['B'], .str ['4', '5'], .str ['9', '0']⟩
      (.str ['1']) (.str ['2']) (by decide) (by decide)).2.1
    rw [h]; rfl

theorem distLE_trans (a b c : School × ℝ) :
    IndexJs.distLE a b → IndexJs.distLE b c → IndexJs.distLE a c := by
  simp only [IndexJs.distLE, decide_eq_true_eq]
  exact le_trans

theorem distLE_total (a b : School × ℝ) :
    IndexJs.distLE a b || IndexJs.distLE b a := by
  simp only [IndexJs.distLE, Bool.or_eq_true, decide_eq_true_eq]
  exact le_total _ _

/-- Claim C2: for an in-range query the list handler returns the
annotated rows — a permutation of the stored records, each paired with
its rounded haversine distance from the query point — sorted
non-decreasingly by distance with ties (indeed any already-ordered pair)
kept in retrieval order, and a count equal to the number of records;
sorting the returned list again leaves it unchanged. -/
theorem c2_list_sorted_stable_count (env : String) (db : DB)
    (latQ lonQ : JSValue)
    (h : IndexJs.invalidLocation latQ lonQ = false) :
    ∃ l : List (School × ℝ),
      IndexJs.listSchools env none db latQ lonQ = .ok l.length l ∧
      l.Perm (db.rows.map
        (IndexJs.withDistance (jToQ (parseFloatJS latQ)) (jToQ (parseFloatJS lonQ)))) ∧
      l.length = db.rows.length ∧
      l.Pairwise (fun a b : School × ℝ => a.2 ≤ b.2) ∧
      (∀ x y : School × ℝ,
        List.Sublist [x, y] (db.rows.map
          (IndexJs.withDistance (jToQ (parseFloatJS latQ)) (jToQ (parseFloatJS lonQ)))) →
        x.2 ≤ y.2 → List.Sublist [x, y] l) ∧
      l.mergeSort IndexJs.distLE = l := by
  refine ⟨(db.rows.map (IndexJs.withDistance (jToQ (parseFloatJS latQ))
      (jToQ (parseFloatJS lonQ)))).mergeSort IndexJs.distLE, ?_, ?_, ?_, ?_, ?_, ?_⟩
  · unfold IndexJs.listSchools
    rw [if_neg (by simp [h])]
  · exact List.mergeSort_perm _ _
  · rw [List.length_mergeSort, List.length_map]
  · exact (List.sorted_mergeSort distLE_trans distLE_total _).imp
      (fun hab => by simpa [IndexJs.distLE] using hab)
  · intro x y hsub hxy
    exact List.pair_sublist_mergeSort distLE_trans distLE_total
      (by simp [IndexJs.distLE, hxy]) hsub
  · exact List.mergeSort_of_sorted
      (List.sorted_mergeSort distLE_trans distLE_total _)

/-- Witness for C2 on a two-row datastore and the query point (1, 2). -/
theorem c2_list_sorted_stable_count_witness :
    ∃ l : List (School × ℝ),
      IndexJs.listSchools "production" none
          ⟨[⟨1, ['A'], ['B'], 10, 20⟩, ⟨2, ['C'], ['D'], -5, 7⟩], 3⟩
          (.str ['1']) (.str ['2']) = .ok l.length l ∧
      l.length = 2 ∧
      l.Pairwise (fun a b : School × ℝ => a.2 ≤ b.2) := by
  obtain ⟨l, h1, -, h3, h4, -, -⟩ :=
    c2_list_sorted_stable_count "production"
      ⟨[⟨1, ['A'], ['B'], 10, 20⟩, ⟨2, ['C'], ['D'], -5, 7⟩], 3⟩
      (.str ['1']) (.str ['2']) (by decide)
  exact ⟨l, h1, h3, h4⟩

/-- Counterexample to claim C5: a record whose latitude is exactly 0 is
reachable (add it with the string `"0"`, which is truthy and parses to
the in-range number 0), yet presenting that persisted record back to the
validator yields an error — the falsy check rejects the number 0 — so
the datastore can hold a record the validator would reject. -/
theorem c5_counterexample_zero_coordinate_record :
    Reachable (IndexJs.addSchool "production" none ⟨[], 1⟩
        ⟨.str ['A'], .str ['B'], .str ['0'], .str ['7']⟩).1 ∧
    (IndexJs.addSchool "production" none ⟨[], 1⟩
        ⟨.str ['A'], .str ['B'], .str ['0'], .str ['7']⟩).1.rows =
      [⟨1, ['A'], ['B'], 0, 7⟩] ∧
    IndexJs.validateSchoolInput (schoolAsInput ⟨1, ['A'], ['B'], 0, 7⟩) ≠ [] :=
  ⟨Reachable.add "production" none ⟨.str ['A'], .str ['B'], .str ['0'], .str ['7']⟩
     Reachable.empty,
   by decide, by decide⟩

/-- Claim C5 as amended: every record in a reachable datastore satisfies
the four field constraints; and every such record whose coordinates are
both nonzero would be accepted by the validator (records with a zero
coordinate are reachable and are rejected by the falsy check, per the
counterexample). -/
theorem c5_reachable_rows_satisfy_constraints :
    ∀ db : DB, Reachable db → ∀ s ∈ db.rows,
      GoodSchool s ∧
      (s.latitude ≠ 0 → s.longitude ≠ 0 →
        IndexJs.validateSchoolInput (schoolAsInput s) = []) := by
  intro db hr
  induction hr with
  | empty =>
    intro s hs
    exact absurd hs (List.not_mem_nil s)
  | add env repoFail i hreach ih =>
    intro s hs
    unfold IndexJs.addSchool at hs
    by_cases hv : (IndexJs.validateSchoolInput i).length > 0
    · rw [if_pos hv] at hs
      exact ih s hs
    · rw [if_neg hv] at hs
      cases repoFail with
      | some e => exact ih s hs
      | none =>
        simp only [List.mem_append, List.mem_singleton] at hs
        rcases hs with hs | hs
        · exact ih s hs
        · have hval : IndexJs.validateSchoolInput i = [] := by
            by_contra hne
            exact hv (List.length_pos.mpr hne)
          have hparts := hval
          unfold IndexJs.validateSchoolInput at hparts
          rw [List.append_eq_nil, List.append_eq_nil, List.append_eq_nil] at hparts
          obtain ⟨⟨⟨hn, ha⟩, hla⟩, hlo⟩ := hparts
          obtain ⟨ns, hns, hnt⟩ := nameErrors_eq_nil hn
          obtain ⟨as0, has0, hat⟩ := addressErrors_eq_nil ha
          obtain ⟨qla, hqla, hla1, hla2⟩ := latitudeErrors_eq_nil hla
          obtain ⟨qlo, hqlo, hlo1, hlo2⟩ := longitudeErrors_eq_nil hlo
          subst hs
          constructor
          · refine ⟨?_, ?_, ?_, ?_, ?_, ?_⟩
            · show trimL (trimL (strV i.name)) ≠ []
              rw [hns]
              exact trimL_trimL_ne_nil hnt
            · show trimL (trimL (strV i.address)) ≠ []
              rw [has0]
              exact trimL_trimL_ne_nil hat
            · show -90 ≤ jToQ (parseFloatJS i.latitude)
              rw [hqla]; exact hla1
            · show jToQ (parseFloatJS i.latitude) ≤ 90
              rw [hqla]; exact hla2
            · show -180 ≤ jToQ (parseFloatJS i.longitude)
              rw [hqlo]; exact hlo1
            · show jToQ (parseFloatJS i.longitude) ≤ 180
              rw [hqlo]; exact hlo2
          · intro hlz hloz
            rw [hqla] at hlz
            rw [hqlo] at hloz
            have d1 : decide (qla ≠ 0) = true := decide_eq_true (by exact hlz)
            have d2 : decide (qlo ≠ 0) = true := decide_eq_true (by exact hloz)
            have d3 : decide (qla < -90) = false := decide_eq_false (not_lt.mpr hla1)
            have d4 : decide ((90 : ℚ) < qla) = false := decide_eq_false (not_lt.mpr hla2)
            have d5 : decide (qlo < -180) = false := decide_eq_false (not_lt.mpr hlo1)
            have d6 : decide ((180 : ℚ) < qlo) = false := decide_eq_false (not_lt.mpr hlo2)
            have tn : trimL (trimL (strV i.name)) ≠ [] := by
              rw [hns]; exact trimL_trimL_ne_nil hnt
            have ta : trimL (trimL (strV i.address)) ≠ [] := by
              rw [has0]; exact trimL_trimL_ne_nil hat
            have tn0 : trimL (strV i.name) ≠ [] := by
              rw [hns]; exact hnt
            have ta0 : trimL (strV i.address) ≠ [] := by
              rw [has0]; exact hat
            simp [schoolAsInput, IndexJs.validateSchoolInput, IndexJs.nameErrors,
              IndexJs.addressErrors, IndexJs.latitudeErrors, IndexJs.longitudeErrors,
              strV_str, truthy_str, truthy_num_fin, isString_str, parseFloatJS_num,
              isNaNJ, jlt, jgt, jToQ, hqla, hqlo,
              d1, d2, d3, d4, d5, d6, tn, ta, tn0, ta0]

/-- Witness for the amended C5 on a concrete reachable state holding one
nonzero-coordinate record. -/
theorem c5_reachable_rows_satisfy_constraints_witness :
    GoodSchool ⟨1, ['A'], ['B'], 45, 90⟩ ∧
    IndexJs.validateSchoolInput (schoolAsInput ⟨1, ['A'], ['B'], 45, 90⟩) = [] := by
  have h := c5_reachable_rows_satisfy_constraints
    (IndexJs.addSchool "production" none ⟨[], 1⟩
      ⟨.str ['A'], .str ['B'], .str ['4', '5'], .str ['9', '0']⟩).1
    (Reachable.add "production" none
      ⟨.str ['A'], .str ['B'], .str ['4', '5'], .str ['9', '0']⟩ Reachable.empty)
    ⟨1, ['A'], ['B'], 45, 90⟩ (by decide)
  exact ⟨h.1, h.2 (by decide) (by decide)⟩

end SchoolMgmt
